import Mathlib

/-!
Verification of the EarthquakeTrends batch pipeline (`trends.py`).

The development shallowly embeds the pipeline's observable behaviour:
timestamps are calendar records, the USGS query client is a pure function
over an explicit network oracle, the filesystem is an explicit state record,
and the pandas DataFrame operations used by the script are modelled as
operations on Lean lists.
-/

namespace EQTrends

/-! ## Calendar model

`pd.Timestamp` values are modelled as calendar field records; the pandas
`DateOffset` arithmetic used by the script (`years=1` subtraction and
`seconds=1` addition) is modelled by explicit calendar arithmetic.
-/

/-- Gregorian leap-year rule, as used by pandas timestamps. -/
def isLeap (y : ℕ) : Bool :=
  (y % 4 == 0 && y % 100 != 0) || y % 400 == 0

/-- Number of days of month `m` (1-indexed) in year `y`. -/
def daysInMonth (y m : ℕ) : ℕ :=
  match m with
  | 1 => 31
  | 2 => if isLeap y then 29 else 28
  | 3 => 31
  | 4 => 30
  | 5 => 31
  | 6 => 30
  | 7 => 31
  | 8 => 31
  | 9 => 30
  | 10 => 31
  | 11 => 30
  | 12 => 31
  | _ => 0

/-- A calendar timestamp (the fields visible to `strftime('%Y-%m-%dT%H:%M:%S')`). -/
structure Ts where
  year : ℕ
  month : ℕ
  day : ℕ
  hour : ℕ
  minute : ℕ
  second : ℕ
deriving DecidableEq, Repr

/-- Calendar validity of a timestamp. -/
def Ts.valid (t : Ts) : Bool :=
  1 ≤ t.month && t.month ≤ 12 && 1 ≤ t.day && t.day ≤ daysInMonth t.year t.month
    && t.hour < 24 && t.minute < 60 && t.second < 60

/-- Two-digit zero-padded decimal rendering (the `%m`, `%d`, `%H`, `%M`, `%S` fields). -/
def pad2 (n : ℕ) : List Char :=
  [Nat.digitChar (n / 10 % 10), Nat.digitChar (n % 10)]

/-- Four-digit zero-padded decimal rendering (the `%Y` field). -/
def pad4 (n : ℕ) : List Char :=
  [Nat.digitChar (n / 1000 % 10), Nat.digitChar (n / 100 % 10),
   Nat.digitChar (n / 10 % 10), Nat.digitChar (n % 10)]

/-- The format `'%Y-%m-%dT%H:%M:%S'` used by `savePrecursorEvents`. -/
def fmtTimestamp (t : Ts) : List Char :=
  pad4 t.year ++ '-' :: (pad2 t.month ++ '-' :: (pad2 t.day ++ 'T' ::
    (pad2 t.hour ++ ':' :: (pad2 t.minute ++ ':' :: pad2 t.second))))

/-- Python 2 `strftime`, which raises `ValueError` for years before 1900.
This is the failure the `try`/`except ValueError` in `savePrecursorEvents`
guards against (the code comment blames `DateOffset`, but the raise happens
when the shifted timestamp is formatted). -/
def strftime1900 (t : Ts) : Except Unit (List Char) :=
  if t.year < 1900 then .error () else .ok (fmtTimestamp t)

/-- `line.time - pd.DateOffset(years=1)`: decrement the year, moving
February 29 to February 28 when the target year is not leap. -/
def subOneYear (t : Ts) : Ts :=
  let y := t.year - 1
  { t with year := y,
           day := if t.month == 2 && t.day == 29 && !(isLeap y) then 28 else t.day }

/-- `line.time + pd.DateOffset(seconds=1)`: add one second with calendar carry. -/
def addOneSecond (t : Ts) : Ts :=
  if t.second + 1 < 60 then { t with second := t.second + 1 }
  else if t.minute + 1 < 60 then { t with second := 0, minute := t.minute + 1 }
  else if t.hour + 1 < 24 then { t with second := 0, minute := 0, hour := t.hour + 1 }
  else if t.day + 1 ≤ daysInMonth t.year t.month then
    { t with second := 0, minute := 0, hour := 0, day := t.day + 1 }
  else if t.month + 1 ≤ 12 then
    { t with second := 0, minute := 0, hour := 0, day := 1, month := t.month + 1 }
  else
    { year := t.year + 1, month := 1, day := 1, hour := 0, minute := 0, second := 0 }

/-- Days in all years before year `y` (proleptic Gregorian, year 0 epoch). -/
def daysUpToYear : ℕ → ℕ
  | 0 => 0
  | y + 1 => daysUpToYear y + (if isLeap y then 366 else 365)

/-- Days in year `y` strictly before month `m` (1-indexed). -/
def daysUpToMonth (y : ℕ) : ℕ → ℕ
  | 0 => 0
  | 1 => 0
  | m + 2 => daysUpToMonth y (m + 1) + daysInMonth y (m + 1)

/-- Linear day number of a timestamp's date. -/
def toDayNumber (t : Ts) : ℕ :=
  daysUpToYear t.year + daysUpToMonth t.year t.month + (t.day - 1)

/-- Linear second count of a timestamp: the semantic reference against which
calendar arithmetic is checked. -/
def epochSeconds (t : Ts) : ℕ :=
  ((toDayNumber t * 24 + t.hour) * 60 + t.minute) * 60 + t.second

/-- Does the char list start with the four characters `1900`?
(Spelled as a boolean chain so it reduces even on symbolic characters.) -/
def startsWith1900 (s : List Char) : Bool :=
  match s with
  | a :: b :: c :: d :: _ => a == '1' && (b == '9' && (c == '0' && d == '0'))
  | _ => false

/-- Python `str.replace('1900','1899')`: replace every (non-overlapping,
left-to-right) occurrence of `1900` by `1899`.  A list shorter than four
characters cannot contain an occurrence and is returned unchanged. -/
def replace1900 : List Char → List Char
  | [] => []
  | [a] => [a]
  | [a, b] => [a, b]
  | [a, b, c] => [a, b, c]
  | a :: b :: c :: d :: rest =>
    if a == '1' && (b == '9' && (c == '0' && d == '0')) then
      '1' :: '8' :: '9' :: '9' :: replace1900 rest
    else
      a :: replace1900 (b :: c :: d :: rest)

/-- The `starttime` computed by `savePrecursorEvents` for a main event at
time `t`: format `t - DateOffset(years=1)`, and on the Python 2 `ValueError`
(shifted year before 1900) fall back to formatting `t` itself and replacing
the substring `1900` by `1899`. -/
def computeStart (t : Ts) : List Char :=
  match strftime1900 (subOneYear t) with
  | .ok s => s
  | .error _ => replace1900 (fmtTimestamp t)

/-- The `endtime` computed by `savePrecursorEvents`: format `t + DateOffset(seconds=1)`. -/
def computeEnd (t : Ts) : List Char :=
  fmtTimestamp (addOneSecond t)

/-- Year field of a formatted date string (first four characters). -/
def yearOfDate (s : List Char) : ℕ :=
  match s with
  | a :: b :: c :: d :: _ =>
    ((((a.toNat - 48) * 10 + (b.toNat - 48)) * 10 + (c.toNat - 48)) * 10 + (d.toNat - 48))
  | _ => 0

/-! ## Query client (`retrieveData`)

Parameters are a list of `(key, value)` character-list pairs; the list order
is the mapping's iteration order.  The network is an oracle giving the outcome
of each successive fetch attempt; a fuel argument bounds how far the
infinite `while True` retry loop is unrolled.
-/

/-- The diagnostic printed when no query parameters are supplied. -/
def noArgsMsg : List Char :=
  "No query arguments specified.".toList

/-- The fixed endpoint prefix of every query URL. -/
def urlBase : List Char :=
  "http://earthquake.usgs.gov/fdsnws/event/1/query?format=csv&".toList

/-- `'&'.join(['='.join([k,str(v)]) for k,v in kwargs.items()])`. -/
def buildQueryString (ps : List (List Char × List Char)) : List Char :=
  List.intercalate ['&'] (ps.map fun p => p.1 ++ '=' :: p.2)

/-- The full query URL. -/
def queryURL (ps : List (List Char × List Char)) : List Char :=
  urlBase ++ buildQueryString ps

/-- The `while True` retry loop around `pd.read_csv`, unrolled up to `fuel`
attempts: returns the first successful parse together with the number of
failed attempts that preceded it (each of which slept 60 seconds). -/
def fetchLoop (attempts : ℕ → Except Unit α) : ℕ → Option (α × ℕ)
  | 0 => none
  | fuel + 1 =>
    match attempts 0 with
    | .ok d => some (d, 0)
    | .error _ => (fetchLoop (fun n => attempts (n + 1)) fuel).map fun p => (p.1, p.2 + 1)

/-- Observable outcome of one `retrieveData` call. -/
structure FetchOutcome (α : Type) where
  result : Option α
  log : List (List Char)
  requests : List (List Char)
  sleeps : List ℕ

/-- `retrieveData`: with no parameters, log a diagnostic and return nothing
without touching the network; otherwise build the URL and fetch it,
retrying with a 60-second sleep after every failure. -/
def retrieveData (ps : List (List Char × List Char)) (attempts : ℕ → Except Unit α)
    (fuel : ℕ) : FetchOutcome α :=
  if ps = [] then
    { result := none, log := [noArgsMsg], requests := [], sleeps := [] }
  else
    match fetchLoop attempts fuel with
    | some (d, n) =>
      { result := some d, log := ["Retrieving data from:".toList, queryURL ps],
        requests := List.replicate (n + 1) (queryURL ps), sleeps := List.replicate n 60 }
    | none =>
      { result := none, log := ["Retrieving data from:".toList, queryURL ps],
        requests := List.replicate fuel (queryURL ps), sleeps := List.replicate fuel 60 }

/-! ## Data model and filesystem state -/

/-- One row of the main-events table (the catalog fields the script reads). -/
structure MainRow where
  time : Ts
  latitude : ℚ
  longitude : ℚ
  mag : ℚ
deriving DecidableEq, Repr

/-- One raw row returned by a precursor query (before tagging). -/
structure RawRow where
  time : Ts
  mag : ℚ
deriving DecidableEq, Repr

/-- One row of a per-event precursor file: catalog fields plus the
back-reference column `main_event` added by `savePrecursorEvents`. -/
structure PrecRow where
  time : Ts
  mag : ℚ
  main_event : ℕ
deriving DecidableEq, Repr

/-- The keyword parameters of one precursor query (line 165-171 of the source). -/
structure PrecQuery where
  starttime : List Char
  endtime : List Char
  minmagnitude : ℚ
  longitude : ℚ
  latitude : ℚ
  maxradiuskm : ℕ
deriving DecidableEq

/-- The filesystem under `fn_base`, as the script sees it:
per-event precursor files keyed by the main event's row identifier, the
merged precursor file, the main-events file, and the rendered PNG files. -/
structure PyState where
  prec : ℕ → Option (List PrecRow)
  merged : Option (List PrecRow)
  mainFile : Option (List MainRow)
  pngs : List (List Char)

/-- The empty base directory. -/
def PyState.empty : PyState :=
  { prec := fun _ => none, merged := none, mainFile := none, pngs := [] }

/-! ## Precursor fetcher (`savePrecursorEvents`) -/

/-- One iteration of the per-event loop: skip if the per-event file exists,
otherwise build the windowed query, fetch, tag every row with the main
event's row identifier, and write the per-event file. -/
def fetchStep (net : PrecQuery → List RawRow) (acc : PyState × List PrecQuery)
    (ev : ℕ × MainRow) : PyState × List PrecQuery :=
  match acc.1.prec ev.1 with
  | some _ => acc
  | none =>
    let q : PrecQuery :=
      { starttime := computeStart ev.2.time, endtime := computeEnd ev.2.time,
        minmagnitude := 1, longitude := ev.2.longitude, latitude := ev.2.latitude,
        maxradiuskm := 100 }
    let rows := (net q).map fun r => PrecRow.mk r.time r.mag ev.1
    ({ acc.1 with prec := fun j => if j = ev.1 then some rows else acc.1.prec j },
     acc.2 ++ [q])

/-- The per-event download loop of `savePrecursorEvents`. -/
def fetchPhase (net : PrecQuery → List RawRow) (data : List (ℕ × MainRow))
    (st : PyState) : PyState × List PrecQuery :=
  data.foldl (fetchStep net) (st, [])

/-- A reloaded per-event DataFrame: its (possibly shifted) index and its rows. -/
structure PrecDF where
  idx : List ℕ
  rows : List PrecRow
deriving DecidableEq, Repr

/-- One iteration of the reload loop: read the per-event file (a missing file
is a fatal error), then shift its default index by the length of the
previously appended DataFrame's index — `dprec.index + len(all[-1].index)
if all else dprec.index`. -/
def mergeStep (st : PyState) (acc : Except Unit (List PrecDF)) (ev : ℕ × MainRow) :
    Except Unit (List PrecDF) :=
  match acc with
  | .error e => .error e
  | .ok all =>
    match st.prec ev.1 with
    | none => .error ()
    | some rows =>
      let offset := match all.getLast? with
        | some prev => prev.idx.length
        | none => 0
      .ok (all ++ [⟨(List.range rows.length).map (· + offset), rows⟩])

/-- The reload-and-concatenate phase of `savePrecursorEvents`:
`pd.concat` of an empty list of DataFrames raises `ValueError`. -/
def mergePhase (data : List (ℕ × MainRow)) (st : PyState) :
    Except Unit (List PrecRow × List ℕ) :=
  match data.foldl (mergeStep st) (Except.ok []) with
  | .error e => .error e
  | .ok all =>
    if all.isEmpty then .error ()
    else .ok (all.flatMap (fun d => d.rows), all.flatMap (fun d => d.idx))

/-- `savePrecursorEvents`: run the per-event loop, then reload, concatenate
and persist the merged table (written with `index=0`, so the merged file
holds the rows without the index).  Returns the final filesystem state, the
issued network requests, and the merged table (rows and index) or the
uncaught error. -/
def savePrecursorEvents (net : PrecQuery → List RawRow) (data : List (ℕ × MainRow))
    (st : PyState) : PyState × List PrecQuery × Except Unit (List PrecRow × List ℕ) :=
  let fp := fetchPhase net data st
  match mergePhase data fp.1 with
  | .ok res => ({ fp.1 with merged := some res.1 }, fp.2, .ok res)
  | .error e => (fp.1, fp.2, .error e)

/-! ## Plotting stage -/

/-- Filename of the magnitude-history chart. -/
def plotEQMagHistoryName : List Char :=
  "plotEQMagHistory.png".toList

/-- Python exceptions that can escape the pipeline. -/
inductive PyErr where
  | valueError
  | nameError
  | ioError
deriving DecidableEq, Repr

/-- `plotEQHistory`: reload the merged file (missing file is fatal) and save
the magnitude-vs-time scatter PNG. -/
def plotEQHistory (st : PyState) : Except PyErr PyState :=
  match st.merged with
  | none => .error .ioError
  | some _ => .ok { st with pngs := st.pngs ++ [plotEQMagHistoryName] }

/-- `df['1970':]`: restrict to events from 1970 onward. -/
def yearRestrict (df : List PrecRow) : List PrecRow :=
  df.filter fun r => 1970 ≤ r.time.year

/-- `df.groupby('main_event').mag.max().get(g)`: the maximum magnitude within
the group `g`, if the group is non-empty. -/
def groupMaxMag (df : List PrecRow) (g : ℕ) : Option ℚ :=
  match (df.filter fun r => r.main_event == g).map (fun r => r.mag) with
  | [] => none
  | m :: ms => some (ms.foldl max m)

/-- The row predicate of the micro-event filter: the row's magnitude is
strictly below its group's maximum magnitude minus 3. -/
def microPred (df : List PrecRow) (r : PrecRow) : Bool :=
  match groupMaxMag df r.main_event with
  | some m => decide (r.mag < m - 3)
  | none => false

/-- `df = df[df.mag < (df.groupby('main_event').mag.max().get(df['main_event']) - 3)]`:
keep rows whose magnitude is strictly below the group maximum minus 3. -/
def microFilter (df : List PrecRow) : List PrecRow :=
  df.filter (microPred df)

/-- `df = df[df.groupby('main_event').main_event.count().get(df.main_event).values>2000]`:
keep rows whose group has strictly more than 2000 rows in the current table. -/
def groupCountFilter (df : List PrecRow) : List PrecRow :=
  df.filter fun r => 2000 < df.countP fun s => s.main_event == r.main_event

/-- The row-filtering pipeline of `plotEQFrequency` (lines 242-244 of the
source): restrict to 1970 onward, keep micro events, keep large groups. -/
def plotEQFrequencyFiltered (df : List PrecRow) : List PrecRow :=
  groupCountFilter (microFilter (yearRestrict df))

/-! ## Pipeline entry point (`__main__`) -/

/-- `saveMainEvents`: fetch the main-events table (here: the oracle's answer
to the fixed query) and persist it. -/
def saveMainEvents (netMain : List MainRow) (st : PyState) : PyState × List MainRow :=
  ({ st with mainFile := some netMain }, netMain)

/-- The `__main__` block with `save_data` truthy: download and save both
stages, plot the magnitude history, then call `plotSomething()` — a name
defined nowhere in the file, so execution always ends in a `NameError`
(when it gets that far).  With `save_data` falsy only the plotting part runs. -/
def mainEntry (netMain : List MainRow) (net : PrecQuery → List RawRow)
    (saveData : Bool) (st : PyState) :
    PyState × List PrecQuery × Except PyErr Unit :=
  if saveData then
    let sm := saveMainEvents netMain st
    match savePrecursorEvents net sm.2.enum sm.1 with
    | (st2, reqs, .error _) => (st2, reqs, .error .valueError)
    | (st2, reqs, .ok _) =>
      match plotEQHistory st2 with
      | .error e => (st2, reqs, .error e)
      | .ok st3 => (st3, reqs, .error .nameError)
  else
    match plotEQHistory st with
    | .error e => (st, [], .error e)
    | .ok st1 => (st1, [], .error .nameError)

/-! ## Invariants and concrete inputs -/

/-- Every per-event file on disk is correctly tagged: each row of the file
for event `i` carries `main_event = i`.  This holds for a fresh base
directory and is preserved by the fetcher. -/
def TagOK (st : PyState) : Prop :=
  ∀ i rows, st.prec i = some rows → ∀ r ∈ rows, r.main_event = i

/-- Event A of the end-to-end scenario: 2005-01-01, magnitude 6.5. -/
def mainRowA : MainRow :=
  { time := ⟨2005, 1, 1, 0, 0, 0⟩, latitude := 10, longitude := 20, mag := 13 / 2 }

/-- Event B of the end-to-end scenario: 2010-06-15, magnitude 7.0. -/
def mainRowB : MainRow :=
  { time := ⟨2010, 6, 15, 0, 0, 0⟩, latitude := -5, longitude := 30, mag := 7 }

/-- A demonstration network oracle answering every precursor query with one
magnitude-2 row. -/
def demoNet : PrecQuery → List RawRow :=
  fun _ => [{ time := ⟨2004, 12, 31, 0, 0, 0⟩, mag := 2 }]

/-- A one-row per-event precursor file for event `i`. -/
def precFile (i : ℕ) : List PrecRow :=
  [{ time := ⟨2004, 12, 31, 0, 0, 0⟩, mag := 2, main_event := i }]

/-- A base directory already holding correctly tagged one-row per-event
files for events 0, 1 and 2. -/
def threeFileState : PyState :=
  { prec := fun i => if i < 3 then some (precFile i) else none,
    merged := none, mainFile := none, pngs := [] }

/-- A three-row main-events table. -/
def threeEvents : List (ℕ × MainRow) :=
  [(0, mainRowA), (1, mainRowA), (2, mainRowA)]

/-- A precursor row of magnitude 8 (a group's maximum). -/
def bigRow (g : ℕ) : PrecRow :=
  { time := ⟨2000, 1, 1, 0, 0, 0⟩, mag := 8, main_event := g }

/-- A precursor row of magnitude 2 (a micro event: more than 3 below 8). -/
def smallRow (g : ℕ) : PrecRow :=
  { time := ⟨2000, 1, 1, 0, 0, 0⟩, mag := 2, main_event := g }

/-- The synthetic frequency-curve dataset: group 0 with 2001 qualifying rows
and its maximum, group 1 with 2000 qualifying rows and its maximum. -/
def scenarioDF : List PrecRow :=
  List.replicate 2001 (smallRow 0) ++ [bigRow 0]
    ++ (List.replicate 2000 (smallRow 1) ++ [bigRow 1])

/-! ## Calendar lemmas -/

theorem daysUpToMonth_succ (y m : ℕ) (h : 1 ≤ m) :
    daysUpToMonth y (m + 1) = daysUpToMonth y m + daysInMonth y m := by
  match m, h with
  | m + 1, _ => rfl

theorem daysInYear (y : ℕ) :
    daysUpToMonth y 12 + daysInMonth y 12 = if isLeap y then 366 else 365 := by
  cases h : isLeap y <;> simp [daysUpToMonth, daysInMonth, h]

/-- `DateOffset(seconds=1)` addition advances linear time by exactly one
second on every valid timestamp. -/
theorem epochSeconds_addOneSecond (t : Ts) (hv : t.valid = true) :
    epochSeconds (addOneSecond t) = epochSeconds t + 1 := by
  obtain ⟨ty, tm, td, th, tmi, ts⟩ := t
  simp only [Ts.valid, Bool.and_eq_true, decide_eq_true_eq] at hv
  obtain ⟨⟨⟨⟨⟨⟨hm1, hm2⟩, hd1⟩, hd2⟩, hh⟩, hmi⟩, hs⟩ := hv
  unfold addOneSecond
  dsimp only
  split_ifs with h1 h2 h3 h4 h5
  · simp only [epochSeconds, toDayNumber]; omega
  · simp only [epochSeconds, toDayNumber]; omega
  · simp only [epochSeconds, toDayNumber]; omega
  · simp only [epochSeconds, toDayNumber]; omega
  · simp only [epochSeconds, toDayNumber]
    rw [daysUpToMonth_succ ty tm hm1]
    omega
  · have hm12 : tm = 12 := by omega
    subst hm12
    have hdm : daysInMonth ty 12 = 31 := rfl
    have hd31 : td = 31 := by omega
    subst hd31
    have hdy := daysInYear ty
    simp only [epochSeconds, toDayNumber]
    rw [show daysUpToMonth (ty + 1) 1 = 0 from rfl]
    rw [show daysUpToYear (ty + 1) = daysUpToYear ty + (if isLeap ty then 366 else 365) from rfl]
    cases hcl : isLeap ty <;> simp [hcl] at hdy ⊢ <;> omega

/-- The pattern `1900` cannot occur in the tail of a formatted date
(`-MM-DDTHH:MM:SS`): every four consecutive characters contain a separator. -/
theorem replace1900_fmtTail (a b c d e f g h i j : Char) :
    replace1900 ('1' :: '9' :: '0' :: '0' :: '-' :: a :: b :: '-' :: c :: d :: 'T' ::
        e :: f :: ':' :: g :: h :: ':' :: i :: [j])
      = '1' :: '8' :: '9' :: '9' :: '-' :: a :: b :: '-' :: c :: d :: 'T' ::
        e :: f :: ':' :: g :: h :: ':' :: i :: [j] := by
  simp [replace1900]

/-- On every valid timestamp with year at least 1900 the computed window
start equals the formatted `T - DateOffset(years=1)` — also in the year-1900
special case, where the string substitution produces the same date with the
year field `1899`. -/
theorem computeStart_eq_subOneYear (t : Ts) (hv : t.valid = true) (hy : 1900 ≤ t.year) :
    computeStart t = fmtTimestamp (subOneYear t) := by
  obtain ⟨ty, tm, td, th, tmi, ts⟩ := t
  replace hy : 1900 ≤ ty := hy
  simp only [Ts.valid, Bool.and_eq_true, decide_eq_true_eq] at hv
  obtain ⟨⟨⟨⟨⟨⟨hm1, hm2⟩, hd1⟩, hd2⟩, hh⟩, hmi⟩, hs⟩ := hv
  rcases Nat.lt_or_ge ty 1901 with hlt | hge
  · have h1900 : ty = 1900 := by omega
    subst h1900
    have hsub : subOneYear (Ts.mk 1900 tm td th tmi ts) = Ts.mk 1899 tm td th tmi ts := by
      unfold subOneYear
      dsimp only
      have hcond : (tm == 2 && td == 29 && !isLeap (1900 - 1)) = false := by
        by_cases hm : tm = 2
        · have h28 : daysInMonth 1900 2 = 28 := rfl
          have hne : td ≠ 29 := by rw [hm] at hd2; omega
          simp [hm, hne]
        · simp [hm]
      rw [hcond]
      simp
    unfold computeStart strftime1900
    rw [hsub]
    rw [if_pos (by norm_num)]
    show replace1900 (fmtTimestamp (Ts.mk 1900 tm td th tmi ts)) = _
    simp only [fmtTimestamp, pad4, pad2]
    norm_num
    exact replace1900_fmtTail _ _ _ _ _ _ _ _ _ _
  · unfold computeStart strftime1900
    have hns : ¬((subOneYear (Ts.mk ty tm td th tmi ts)).year < 1900) := by
      show ¬(ty - 1 < 1900)
      omega
    rw [if_neg hns]

/-- C3 counterexample: for the main event at `1900-06-15T00:00:00` (a valid
timestamp whose year is 1900) the special-cased start is
`1899-06-15T00:00:00` — a date within the year 1899, not a date within the
year 1900 as the claim states. -/
theorem claim_C3_counterexample :
    (Ts.mk 1900 6 15 0 0 0).valid = true
      ∧ computeStart (Ts.mk 1900 6 15 0 0 0) = "1899-06-15T00:00:00".toList
      ∧ yearOfDate (computeStart (Ts.mk 1900 6 15 0 0 0)) = 1899
      ∧ yearOfDate (computeStart (Ts.mk 1900 6 15 0 0 0)) ≠ 1900 := by
  decide

/-- C3 (amended): for every valid main-event time `T` with year at least
1900, the computed query-window start equals `T` minus one year — including
when `T`'s year is 1900, where the special-cased string substitution yields
the same calendar date with year 1899 (not a date within 1900) — and the
computed end equals `T` plus one second (verified against linear time). -/
theorem claim_C3_theorem (t : Ts) (hv : t.valid = true) (hy : 1900 ≤ t.year) :
    computeStart t = fmtTimestamp (subOneYear t)
      ∧ (subOneYear t).year = t.year - 1
      ∧ computeEnd t = fmtTimestamp (addOneSecond t)
      ∧ epochSeconds (addOneSecond t) = epochSeconds t + 1 :=
  ⟨computeStart_eq_subOneYear t hv hy, rfl, rfl, epochSeconds_addOneSecond t hv⟩

/-- C3 witness: the amended window theorem instantiated at
`2005-01-01T00:00:00`. -/
theorem claim_C3_witness :
    (Ts.mk 2005 1 1 0 0 0).valid = true ∧ 1900 ≤ (Ts.mk 2005 1 1 0 0 0).year
      ∧ (computeStart (Ts.mk 2005 1 1 0 0 0) = fmtTimestamp (subOneYear (Ts.mk 2005 1 1 0 0 0))
        ∧ (subOneYear (Ts.mk 2005 1 1 0 0 0)).year = (Ts.mk 2005 1 1 0 0 0).year - 1
        ∧ computeEnd (Ts.mk 2005 1 1 0 0 0) = fmtTimestamp (addOneSecond (Ts.mk 2005 1 1 0 0 0))
        ∧ epochSeconds (addOneSecond (Ts.mk 2005 1 1 0 0 0))
            = epochSeconds (Ts.mk 2005 1 1 0 0 0) + 1) :=
  ⟨by decide, by norm_num, claim_C3_theorem _ (by decide) (by norm_num)⟩

/-! ## Query client theorems -/

/-- If the key contains no `=`, taking the prefix of `key=value` up to the
first `=` recovers the key. -/
theorem takeWhile_key (k v : List Char) (hk : '=' ∉ k) :
    ((k ++ '=' :: v).takeWhile fun c => c != '=') = k := by
  induction k with
  | nil => simp
  | cons c cs ih =>
    have hc : c ≠ '=' := fun h => hk (by simp [h])
    simp only [List.cons_append, List.takeWhile_cons]
    simp [hc, ih fun h => hk (List.mem_cons_of_mem _ h)]

/-- C9: with no query parameters, `retrieveData` issues no network request,
logs the `No query arguments specified.` diagnostic, and returns no table
rather than raising an error. -/
theorem claim_C9_theorem (α : Type) (attempts : ℕ → Except Unit α) (fuel : ℕ) :
    retrieveData [] attempts fuel
      = { result := none, log := [noArgsMsg], requests := [], sleeps := [] } := by
  rfl

theorem fetchLoop_spec (α : Type) :
    ∀ (n : ℕ) (attempts : ℕ → Except Unit α) (t : α) (fuel : ℕ),
      attempts n = .ok t → (∀ m < n, attempts m = .error ()) → n < fuel →
      fetchLoop attempts fuel = some (t, n) := by
  intro n
  induction n with
  | zero =>
    intro attempts t fuel hn hfail hfuel
    cases fuel with
    | zero => omega
    | succ f => simp [fetchLoop, hn]
  | succ k ih =>
    intro attempts t fuel hn hfail hfuel
    cases fuel with
    | zero => omega
    | succ f =>
      have h0 : attempts 0 = .error () := hfail 0 (Nat.succ_pos k)
      have hrec := ih (fun m => attempts (m + 1)) t f hn
        (fun m hm => hfail (m + 1) (by omega)) (by omega)
      simp [fetchLoop, h0, hrec]

/-- C8: for a non-empty parameter mapping, when fetch attempts `0..n-1` fail
and attempt `n` succeeds, `retrieveData` returns the parsed table of the
successful attempt, sleeps a fixed 60 seconds after each of the `n`
failures, re-requests the same URL on every attempt, and never surfaces an
error to the caller. -/
theorem claim_C8_theorem (α : Type) (ps : List (List Char × List Char)) (hps : ps ≠ [])
    (attempts : ℕ → Except Unit α) (t : α) (n fuel : ℕ)
    (hn : attempts n = .ok t) (hfail : ∀ m < n, attempts m = .error ())
    (hfuel : n < fuel) :
    (retrieveData ps attempts fuel).result = some t
      ∧ (retrieveData ps attempts fuel).sleeps = List.replicate n 60
      ∧ (retrieveData ps attempts fuel).requests = List.replicate (n + 1) (queryURL ps) := by
  have h := fetchLoop_spec α n attempts t fuel hn hfail hfuel
  simp [retrieveData, hps, h]

/-- C8 witness: the retry theorem instantiated on an oracle failing twice
before succeeding. -/
theorem claim_C8_witness :
    ((fun m => if m < 2 then (Except.error () : Except Unit ℕ) else .ok 42) 2 = .ok 42)
      ∧ (∀ m < 2, (fun m => if m < 2 then (Except.error () : Except Unit ℕ) else .ok 42) m = .error ())
      ∧ ((retrieveData [(['a'], ['b'])] (fun m => if m < 2 then (Except.error () : Except Unit ℕ) else .ok 42) 5).result = some 42
        ∧ (retrieveData [(['a'], ['b'])] (fun m => if m < 2 then (Except.error () : Except Unit ℕ) else .ok 42) 5).sleeps = List.replicate 2 60
        ∧ (retrieveData [(['a'], ['b'])] (fun m => if m < 2 then (Except.error () : Except Unit ℕ) else .ok 42) 5).requests = List.replicate (2 + 1) (queryURL [(['a'], ['b'])])) :=
  ⟨rfl, by intro m hm; interval_cases m <;> rfl,
    claim_C8_theorem ℕ _ (by decide) _ 42 2 5 rfl
      (by intro m hm; interval_cases m <;> rfl) (by decide)⟩

theorem countP_eq_one_of_nodup {α : Type} [DecidableEq α] (a : α) :
    ∀ l : List α, l.Nodup → a ∈ l → l.countP (fun x => decide (x = a)) = 1 := by
  intro l
  induction l with
  | nil => intro _ ha; cases ha
  | cons b bs ih =>
    intro hnd ha
    rw [List.countP_cons]
    rcases List.mem_cons.mp ha with rfl | hmem
    · have hnb : a ∉ bs := (List.nodup_cons.mp hnd).1
      have h0 : bs.countP (fun x => decide (x = a)) = 0 := by
        rw [List.countP_eq_zero]
        intro x hx
        simp only [decide_eq_true_eq]
        exact fun he => hnb (he ▸ hx)
      simp [h0]
    · have hne : b ≠ a := by
        rintro rfl
        exact (List.nodup_cons.mp hnd).1 hmem
      have hr := ih (List.nodup_cons.mp hnd).2 hmem
      simp [hne, hr]

/-- C4: for a non-empty parameter mapping (separator-free keys and values,
distinct keys), splitting the constructed query string on `&` recovers
exactly the `key=value` pairs in the mapping's iteration order — nothing
dropped, nothing reordered — and every supplied key occurs exactly once as
the key of such a pair. -/
theorem claim_C4_theorem (ps : List (List Char × List Char)) (hne : ps ≠ [])
    (hamp : ∀ p ∈ ps, '&' ∉ p.1 ∧ '&' ∉ p.2) (heqk : ∀ p ∈ ps, '=' ∉ p.1)
    (hnd : (ps.map Prod.fst).Nodup) :
    (buildQueryString ps).splitOn '&' = ps.map (fun p => p.1 ++ '=' :: p.2)
      ∧ ∀ p ∈ ps, ((buildQueryString ps).splitOn '&').countP
          (fun part => (part.takeWhile fun c => c != '=') == p.1) = 1 := by
  have h1 : (buildQueryString ps).splitOn '&' = ps.map (fun p => p.1 ++ '=' :: p.2) := by
    unfold buildQueryString
    refine List.splitOn_intercalate _ '&' ?_ ?_
    · intro l hl
      obtain ⟨p, hp, rfl⟩ := List.mem_map.mp hl
      intro hmem
      rcases List.mem_append.mp hmem with h | h
      · exact (hamp p hp).1 h
      · rcases List.mem_cons.mp h with h | h
        · exact absurd h (by decide)
        · exact (hamp p hp).2 h
    · simpa using hne
  refine ⟨h1, ?_⟩
  intro p hp
  rw [h1, List.countP_map]
  have hcong : List.countP
      ((fun part => (part.takeWhile fun c => c != '=') == p.1) ∘ fun q => q.1 ++ '=' :: q.2) ps
      = List.countP (fun q => decide (q.1 = p.1)) ps := by
    refine List.countP_congr ?_
    intro q hq
    simp only [Function.comp]
    rw [takeWhile_key q.1 q.2 (heqk q hq)]
    simp [beq_iff_eq]
  rw [hcong]
  have hmap : List.countP (fun q => decide (q.1 = p.1)) ps
      = List.countP (fun k => decide (k = p.1)) (ps.map Prod.fst) := by
    rw [List.countP_map]
    rfl
  rw [hmap]
  exact countP_eq_one_of_nodup p.1 (ps.map Prod.fst) hnd (List.mem_map_of_mem _ hp)


/-- C4 witness: the query-construction theorem instantiated on a concrete
two-parameter mapping. -/
theorem claim_C4_witness :
    ([(['s'], ['1']), (['e'], ['2'])] : List (List Char × List Char)) ≠ []
      ∧ ((buildQueryString [(['s'], ['1']), (['e'], ['2'])]).splitOn '&'
          = ([(['s'], ['1']), (['e'], ['2'])] : List (List Char × List Char)).map
              (fun p => p.1 ++ '=' :: p.2)
        ∧ ∀ p ∈ ([(['s'], ['1']), (['e'], ['2'])] : List (List Char × List Char)),
            ((buildQueryString [(['s'], ['1']), (['e'], ['2'])]).splitOn '&').countP
              (fun part => (part.takeWhile fun c => c != '=') == p.1) = 1) :=
  ⟨by decide, claim_C4_theorem _ (by decide) (by decide) (by decide) (by decide)⟩

/-! ## Precursor fetcher and pipeline theorems -/

/-- C10: called on an empty main-events table, `savePrecursorEvents` issues
no request, reaches `pd.concat` with an empty list of DataFrames and raises
an uncaught `ValueError`; the merged output file is not written. -/
theorem claim_C10_theorem (net : PrecQuery → List RawRow) (st : PyState) :
    savePrecursorEvents net [] st = (st, [], Except.error ())
      ∧ (savePrecursorEvents net [] st).1.merged = st.merged :=
  ⟨rfl, rfl⟩

/-- C2 evidence: with three one-row per-event files already on disk, the
reload loop offsets each index only by the length of the immediately
preceding file, so the merged table's index is `[0, 1, 1]` — files 2 and 3
collide, contradicting the claimed no-collision re-indexing. -/
theorem claim_C2_theorem :
    (savePrecursorEvents (fun _ => []) threeEvents threeFileState).2.2
        = Except.ok (precFile 0 ++ precFile 1 ++ precFile 2, [0, 1, 1])
      ∧ ¬ ([0, 1, 1] : List ℕ).Nodup := by
  refine ⟨rfl, by decide⟩

theorem foldl_fetchStep_skip (net : PrecQuery → List RawRow) :
    ∀ (data : List (ℕ × MainRow)) (st : PyState) (reqs : List PrecQuery),
      (∀ p ∈ data, st.prec p.1 ≠ none) →
      data.foldl (fetchStep net) (st, reqs) = (st, reqs) := by
  intro data
  induction data with
  | nil => intro st reqs _; rfl
  | cons ev rest ih =>
    intro st reqs h
    have h0 : st.prec ev.1 ≠ none := h ev (List.mem_cons_self _ _)
    have hstep : fetchStep net (st, reqs) ev = (st, reqs) := by
      unfold fetchStep
      cases hc : st.prec ev.1 with
      | none => exact absurd hc h0
      | some rows => rfl
    rw [List.foldl_cons, hstep]
    exact ih st reqs fun p hp => h p (List.mem_cons_of_mem _ hp)

theorem foldl_fetchStep_mono (net : PrecQuery → List RawRow) :
    ∀ (data : List (ℕ × MainRow)) (acc : PyState × List PrecQuery) (i : ℕ),
      acc.1.prec i ≠ none → ((data.foldl (fetchStep net) acc).1).prec i ≠ none := by
  intro data
  induction data with
  | nil => intro acc i h; exact h
  | cons ev rest ih =>
    intro acc i h
    rw [List.foldl_cons]
    apply ih
    unfold fetchStep
    cases hc : acc.1.prec ev.1 with
    | some rows => exact h
    | none =>
      dsimp only
      by_cases hie : i = ev.1
      · subst hie; simp
      · simp [hie]
        exact h

theorem foldl_fetchStep_exists (net : PrecQuery → List RawRow) :
    ∀ (data : List (ℕ × MainRow)) (acc : PyState × List PrecQuery) (p : ℕ × MainRow),
      p ∈ data → ((data.foldl (fetchStep net) acc).1).prec p.1 ≠ none := by
  intro data
  induction data with
  | nil => intro acc p hp; cases hp
  | cons ev rest ih =>
    intro acc p hp
    rcases List.mem_cons.mp hp with heq | hmem
    · subst heq
      rw [List.foldl_cons]
      apply foldl_fetchStep_mono
      unfold fetchStep
      cases hc : acc.1.prec p.1 with
      | some rows => simp [hc]
      | none => simp [hc]
    · rw [List.foldl_cons]
      exact ih _ p hmem


theorem mergeStep_ext (st st' : PyState) (h : st.prec = st'.prec) :
    mergeStep st = mergeStep st' := by
  funext acc ev
  unfold mergeStep
  rw [h]

theorem mergePhase_ext (data : List (ℕ × MainRow)) (st st' : PyState)
    (h : st.prec = st'.prec) : mergePhase data st = mergePhase data st' := by
  unfold mergePhase
  rw [mergeStep_ext st st' h]

/-- C5: running `savePrecursorEvents` a second time on the same main-events
table, starting from the filesystem the first run produced, issues no
network request at all (every per-event file exists), returns the same
merged table, and leaves the merged output file byte-identical. -/
theorem claim_C5_theorem (net1 net2 : PrecQuery → List RawRow)
    (data : List (ℕ × MainRow)) (st0 : PyState) :
    (savePrecursorEvents net2 data (savePrecursorEvents net1 data st0).1).2.1 = []
      ∧ (savePrecursorEvents net2 data (savePrecursorEvents net1 data st0).1).2.2
          = (savePrecursorEvents net1 data st0).2.2
      ∧ (savePrecursorEvents net2 data (savePrecursorEvents net1 data st0).1).1.merged
          = (savePrecursorEvents net1 data st0).1.merged := by
  have hex : ∀ p ∈ data, ((fetchPhase net1 data st0).1).prec p.1 ≠ none :=
    fun p hp => foldl_fetchStep_exists net1 data (st0, []) p hp
  cases hm : mergePhase data (fetchPhase net1 data st0).1 with
  | ok res =>
    have hR1 : savePrecursorEvents net1 data st0
        = ({ (fetchPhase net1 data st0).1 with merged := some res.1 },
           (fetchPhase net1 data st0).2, .ok res) := by
      simp only [savePrecursorEvents, hm]
    rw [hR1]
    have hprec : ({ (fetchPhase net1 data st0).1 with merged := some res.1 } : PyState).prec
        = ((fetchPhase net1 data st0).1).prec := rfl
    have hex2 : ∀ p ∈ data,
        ({ (fetchPhase net1 data st0).1 with merged := some res.1 } : PyState).prec p.1 ≠ none :=
      fun p hp => hex p hp
    have hf2 : fetchPhase net2 data { (fetchPhase net1 data st0).1 with merged := some res.1 }
        = ({ (fetchPhase net1 data st0).1 with merged := some res.1 }, []) :=
      foldl_fetchStep_skip net2 data _ [] hex2
    have hm2 : mergePhase data ({ (fetchPhase net1 data st0).1 with merged := some res.1 } : PyState)
        = .ok res := by
      rw [mergePhase_ext data _ _ hprec, hm]
    unfold savePrecursorEvents
    rw [hf2]
    dsimp only
    rw [hm2]
    exact ⟨rfl, rfl, rfl⟩
  | error e =>
    have hR1 : savePrecursorEvents net1 data st0
        = ((fetchPhase net1 data st0).1, (fetchPhase net1 data st0).2, .error e) := by
      simp only [savePrecursorEvents, hm]
    rw [hR1]
    have hf2 : fetchPhase net2 data (fetchPhase net1 data st0).1
        = ((fetchPhase net1 data st0).1, []) :=
      foldl_fetchStep_skip net2 data _ [] hex
    unfold savePrecursorEvents
    rw [hf2]
    dsimp only
    rw [hm]
    exact ⟨rfl, rfl, rfl⟩


theorem fetchStep_tagOK (net : PrecQuery → List RawRow) (acc : PyState × List PrecQuery)
    (ev : ℕ × MainRow) (h : TagOK acc.1) : TagOK ((fetchStep net acc ev).1) := by
  unfold fetchStep
  cases hc : acc.1.prec ev.1 with
  | some rows => exact h
  | none =>
    intro i rows' hi r hr
    dsimp only at hi
    split at hi
    case isTrue hie =>
      injection hi with hi'
      subst hi'
      obtain ⟨raw, hraw, rfl⟩ := List.mem_map.mp hr
      exact hie.symm
    case isFalse hie =>
      exact h i rows' hi r hr

theorem foldl_fetchStep_tagOK (net : PrecQuery → List RawRow) :
    ∀ (data : List (ℕ × MainRow)) (acc : PyState × List PrecQuery),
      TagOK acc.1 → TagOK ((data.foldl (fetchStep net) acc).1) := by
  intro data
  induction data with
  | nil => intro acc h; exact h
  | cons ev rest ih =>
    intro acc h
    rw [List.foldl_cons]
    exact ih _ (fetchStep_tagOK net acc ev h)

theorem mergeFold_error (st : PyState) :
    ∀ (data : List (ℕ × MainRow)) (e : Unit),
      data.foldl (mergeStep st) (.error e) = .error e := by
  intro data
  induction data with
  | nil => intro e; rfl
  | cons ev rest ih => intro e; rw [List.foldl_cons]; exact ih e

theorem mergeFold_rows (st : PyState) (hst : TagOK st) :
    ∀ (data : List (ℕ × MainRow)) (all0 all : List PrecDF),
      data.foldl (mergeStep st) (.ok all0) = .ok all →
      ∀ df ∈ all, df ∈ all0 ∨ ∃ p ∈ data, ∀ r ∈ df.rows, r.main_event = p.1 := by
  intro data
  induction data with
  | nil =>
    intro all0 all hfold df hdf
    rw [List.foldl_nil] at hfold
    injection hfold with heq
    subst heq
    exact Or.inl hdf
  | cons ev rest ih =>
    intro all0 all hfold df hdf
    rw [List.foldl_cons] at hfold
    cases hc : st.prec ev.1 with
    | none =>
      have hinit : mergeStep st (.ok all0) ev = .error () := by
        unfold mergeStep
        rw [hc]
      rw [hinit, mergeFold_error st rest ()] at hfold
      cases hfold
    | some rows =>
      have hinit : mergeStep st (.ok all0) ev
          = .ok (all0 ++ [⟨(List.range rows.length).map
              (· + (match all0.getLast? with
                    | some prev => prev.idx.length
                    | none => 0)), rows⟩]) := by
        unfold mergeStep
        rw [hc]
      rw [hinit] at hfold
      rcases ih _ all hfold df hdf with hin | ⟨p, hp, htag⟩
      · rcases List.mem_append.mp hin with hin0 | hnew
        · exact Or.inl hin0
        · refine Or.inr ⟨ev, List.mem_cons_self _ _, ?_⟩
          have hdf' : df.rows = rows := by
            have : df = ⟨(List.range rows.length).map
                (· + (match all0.getLast? with
                      | some prev => prev.idx.length
                      | none => 0)), rows⟩ := by simpa using hnew
            rw [this]
          intro r hr
          rw [hdf'] at hr
          exact hst ev.1 rows hc r hr
      · exact Or.inr ⟨p, List.mem_cons_of_mem _ hp, htag⟩

/-- C6: provided every pre-existing per-event file is correctly tagged (in
particular for a fresh base directory), every row of the merged precursor
table references the row identifier of some row of the main-events table. -/
theorem claim_C6_theorem (net : PrecQuery → List RawRow) (data : List (ℕ × MainRow))
    (st0 : PyState) (h0 : TagOK st0) :
    ∀ rows idxs, (savePrecursorEvents net data st0).2.2 = .ok (rows, idxs) →
      ∀ r ∈ rows, ∃ p ∈ data, r.main_event = p.1 := by
  intro rows idxs hok r hr
  have h1 : TagOK (fetchPhase net data st0).1 :=
    foldl_fetchStep_tagOK net data (st0, []) h0
  simp only [savePrecursorEvents] at hok
  cases hm : mergePhase data (fetchPhase net data st0).1 with
  | error e =>
    simp only [hm] at hok
    exact Except.noConfusion hok
  | ok res =>
    simp only [hm] at hok
    injection hok with hres
    subst hres
    cases hfold : (data.foldl (mergeStep (fetchPhase net data st0).1) (.ok [])) with
    | error e =>
      simp only [mergePhase, hfold] at hm
      exact Except.noConfusion hm
    | ok all =>
      simp only [mergePhase, hfold] at hm
      by_cases hemp : all.isEmpty
      · rw [if_pos hemp] at hm
        exact Except.noConfusion hm
      · rw [if_neg hemp] at hm
        injection hm with hpair
        have hfl : rows = all.flatMap fun d => d.rows :=
          ((Prod.mk.injEq _ _ _ _).mp hpair).1.symm
        rw [hfl] at hr
        obtain ⟨df, hdf, hrdf⟩ := List.mem_flatMap.mp hr
        rcases mergeFold_rows _ h1 data [] all hfold df hdf with hin | ⟨p, hp, htag⟩
        · cases hin
        · exact ⟨p, hp, htag r hrdf⟩


/-- C6 witness: the invariant theorem applied to a fresh base directory and
a two-row main-events table. -/
theorem claim_C6_witness :
    TagOK PyState.empty
      ∧ ∀ r ∈ ([{ time := ⟨2004, 12, 31, 0, 0, 0⟩, mag := 2, main_event := 0 },
                 { time := ⟨2004, 12, 31, 0, 0, 0⟩, mag := 2, main_event := 1 }] : List PrecRow),
          ∃ p ∈ [(0, mainRowA), (1, mainRowB)], r.main_event = p.1 :=
  ⟨fun _ _ h => Option.noConfusion h,
   claim_C6_theorem demoNet [(0, mainRowA), (1, mainRowB)] PyState.empty
     (fun _ _ h => Option.noConfusion h)
     [{ time := ⟨2004, 12, 31, 0, 0, 0⟩, mag := 2, main_event := 0 },
      { time := ⟨2004, 12, 31, 0, 0, 0⟩, mag := 2, main_event := 1 }] [0, 1] rfl⟩

/-- C1 evidence: on the two-row scenario table (A 2005-01-01 mag 6.5,
B 2010-06-15 mag 7.0) with `save_data` truthy, the pipeline writes both
per-event files and the merged file whose `main_event` column takes only
values 0 and 1, but produces only `plotEQMagHistory.png` and terminates
with an uncaught `NameError` from the undefined `plotSomething()`. -/
theorem claim_C1_theorem :
    (mainEntry [mainRowA, mainRowB] demoNet true PyState.empty).2.2
        = .error .nameError
      ∧ (mainEntry [mainRowA, mainRowB] demoNet true PyState.empty).1.prec 0
          = some [{ time := ⟨2004, 12, 31, 0, 0, 0⟩, mag := 2, main_event := 0 }]
      ∧ (mainEntry [mainRowA, mainRowB] demoNet true PyState.empty).1.prec 1
          = some [{ time := ⟨2004, 12, 31, 0, 0, 0⟩, mag := 2, main_event := 1 }]
      ∧ (mainEntry [mainRowA, mainRowB] demoNet true PyState.empty).1.merged
          = some [{ time := ⟨2004, 12, 31, 0, 0, 0⟩, mag := 2, main_event := 0 },
                  { time := ⟨2004, 12, 31, 0, 0, 0⟩, mag := 2, main_event := 1 }]
      ∧ (∀ r ∈ ([{ time := ⟨2004, 12, 31, 0, 0, 0⟩, mag := 2, main_event := 0 },
                  { time := ⟨2004, 12, 31, 0, 0, 0⟩, mag := 2, main_event := 1 }] : List PrecRow),
           r.main_event = 0 ∨ r.main_event = 1)
      ∧ (mainEntry [mainRowA, mainRowB] demoNet true PyState.empty).1.pngs
          = [plotEQMagHistoryName] := by
  refine ⟨rfl, rfl, rfl, rfl, by decide, rfl⟩

/-! ## Plotting stage theorems -/

theorem countP_replicate {α : Type} (p : α → Bool) (a : α) (n : ℕ) :
    (List.replicate n a).countP p = if p a then n else 0 := by
  induction n with
  | zero => simp
  | succ k ih =>
    rw [List.replicate_succ, List.countP_cons, ih]
    cases hp : p a <;> simp [hp]

theorem foldl_max_replicate (a : ℚ) : ∀ n, (List.replicate n a).foldl max a = a := by
  intro n
  induction n with
  | zero => rfl
  | succ k ih =>
    rw [List.replicate_succ, List.foldl_cons, max_self]
    exact ih

theorem countP_scenario (p : PrecRow → Bool) (b0 b1 b2 b3 : Bool)
    (h0 : p (smallRow 0) = b0) (h1 : p (bigRow 0) = b1)
    (h2 : p (smallRow 1) = b2) (h3 : p (bigRow 1) = b3) :
    scenarioDF.countP p
      = (cond b0 2001 0) + (cond b1 1 0) + (cond b2 2000 0) + (cond b3 1 0) := by
  unfold scenarioDF
  simp only [List.countP_append, countP_replicate, List.countP_cons, List.countP_nil,
    h0, h1, h2, h3]
  cases b0 <;> cases b1 <;> cases b2 <;> cases b3 <;> simp

theorem groupMaxMag_scenario0 : groupMaxMag scenarioDF 0 = some 8 := by
  unfold groupMaxMag
  simp only [scenarioDF, List.filter_append, List.filter_replicate]
  norm_num [smallRow, bigRow]
  rw [show (2001 : ℕ) = 2000 + 1 from rfl, List.replicate_succ, List.cons_append]
  dsimp only
  rw [List.foldl_append, foldl_max_replicate]
  norm_num

theorem groupMaxMag_scenario1 : groupMaxMag scenarioDF 1 = some 8 := by
  unfold groupMaxMag
  simp only [scenarioDF, List.filter_append, List.filter_replicate]
  norm_num [smallRow, bigRow]
  rw [show (2000 : ℕ) = 1999 + 1 from rfl, List.replicate_succ, List.cons_append]
  dsimp only
  rw [List.foldl_append, foldl_max_replicate]
  norm_num

theorem microPred_s0 : microPred scenarioDF (smallRow 0) = true := by
  unfold microPred
  simp only [smallRow]
  rw [groupMaxMag_scenario0]
  norm_num

theorem microPred_b0 : microPred scenarioDF (bigRow 0) = false := by
  unfold microPred
  simp only [bigRow]
  rw [groupMaxMag_scenario0]
  norm_num

theorem microPred_s1 : microPred scenarioDF (smallRow 1) = true := by
  unfold microPred
  simp only [smallRow]
  rw [groupMaxMag_scenario1]
  norm_num

theorem microPred_b1 : microPred scenarioDF (bigRow 1) = false := by
  unfold microPred
  simp only [bigRow]
  rw [groupMaxMag_scenario1]
  norm_num

theorem smallRow_main (g : ℕ) : (smallRow g).main_event = g := rfl

theorem bigRow_main (g : ℕ) : (bigRow g).main_event = g := rfl

theorem countP_micro_scenario0 :
    (microFilter scenarioDF).countP (fun s => s.main_event == 0) = 2001 := by
  unfold microFilter
  rw [List.countP_filter]
  rw [countP_scenario _ true false false false
    (by rw [smallRow_main, microPred_s0]; rfl)
    (by rw [bigRow_main, microPred_b0]; rfl)
    (by rw [smallRow_main, microPred_s1]; rfl)
    (by rw [bigRow_main, microPred_b1]; rfl)]
  rfl

theorem countP_micro_scenario1 :
    (microFilter scenarioDF).countP (fun s => s.main_event == 1) = 2000 := by
  unfold microFilter
  rw [List.countP_filter]
  rw [countP_scenario _ false false true false
    (by rw [smallRow_main, microPred_s0]; rfl)
    (by rw [bigRow_main, microPred_b0]; rfl)
    (by rw [smallRow_main, microPred_s1]; rfl)
    (by rw [bigRow_main, microPred_b1]; rfl)]
  rfl


theorem smallRow_mag (g : ℕ) : (smallRow g).mag = 2 := rfl

theorem bigRow_mag (g : ℕ) : (bigRow g).mag = 8 := rfl

theorem yearRestrict_scenario : yearRestrict scenarioDF = scenarioDF := by
  unfold yearRestrict scenarioDF
  norm_num [List.filter_append, List.filter_replicate, smallRow, bigRow]

theorem microPred_iff (df : List PrecRow) (r : PrecRow) :
    microPred df r = true ↔ ∃ m, groupMaxMag df r.main_event = some m ∧ r.mag < m - 3 := by
  unfold microPred
  cases h : groupMaxMag df r.main_event <;> simp [h]

theorem microFilter_mem (df : List PrecRow) (r : PrecRow) :
    r ∈ microFilter df ↔ r ∈ df ∧ microPred df r = true := by
  unfold microFilter
  exact List.mem_filter

theorem freqFiltered_mem (df : List PrecRow) (r : PrecRow) :
    r ∈ plotEQFrequencyFiltered df ↔
      r ∈ yearRestrict df
        ∧ (∃ m, groupMaxMag (yearRestrict df) r.main_event = some m ∧ r.mag < m - 3)
        ∧ 2000 < (microFilter (yearRestrict df)).countP
            (fun s => s.main_event == r.main_event) := by
  unfold plotEQFrequencyFiltered groupCountFilter
  rw [List.mem_filter, microFilter_mem, microPred_iff, decide_eq_true_eq]
  exact and_assoc

/-- C7 (amended): a row survives the frequency-curve filtering iff it is
from 1970 onward, its magnitude is strictly more than 3 below its group's
maximum (`mag < max - 3`; a row exactly 3 below is discarded), and its group
has strictly more than 2000 such qualifying rows; in the synthetic dataset
with a 2001-qualifying-row group and a 2000-qualifying-row group, only the
former survives. -/
theorem claim_C7_theorem :
    (∀ (df : List PrecRow) (r : PrecRow),
        r ∈ plotEQFrequencyFiltered df ↔
          r ∈ yearRestrict df
            ∧ (∃ m, groupMaxMag (yearRestrict df) r.main_event = some m ∧ r.mag < m - 3)
            ∧ 2000 < (microFilter (yearRestrict df)).countP
                (fun s => s.main_event == r.main_event))
      ∧ (∀ r ∈ plotEQFrequencyFiltered scenarioDF, r.main_event = 0)
      ∧ smallRow 0 ∈ plotEQFrequencyFiltered scenarioDF := by
  refine ⟨freqFiltered_mem, ?_, ?_⟩
  · intro r hr
    obtain ⟨hin, ⟨m, hgm, hlt⟩, hcnt⟩ := (freqFiltered_mem scenarioDF r).mp hr
    rw [yearRestrict_scenario] at hin hgm hcnt
    simp only [scenarioDF, List.mem_append, List.mem_replicate, List.mem_singleton] at hin
    rcases hin with (⟨_, rfl⟩ | rfl) | (⟨_, rfl⟩ | rfl)
    · exact smallRow_main 0
    · rw [bigRow_main] at hgm
      rw [groupMaxMag_scenario0] at hgm
      injection hgm with hm
      rw [bigRow_mag, ← hm] at hlt
      norm_num at hlt
    · simp only [smallRow_main] at hcnt
      rw [countP_micro_scenario1] at hcnt
      norm_num at hcnt
    · rw [bigRow_main] at hgm
      rw [groupMaxMag_scenario1] at hgm
      injection hgm with hm
      rw [bigRow_mag, ← hm] at hlt
      norm_num at hlt
  · refine (freqFiltered_mem scenarioDF (smallRow 0)).mpr ⟨?_, ⟨8, ?_, ?_⟩, ?_⟩
    · rw [yearRestrict_scenario]
      unfold scenarioDF
      refine List.mem_append.mpr (Or.inl (List.mem_append.mpr (Or.inl ?_)))
      exact List.mem_replicate.mpr ⟨by norm_num, rfl⟩
    · rw [yearRestrict_scenario, smallRow_main]
      exact groupMaxMag_scenario0
    · rw [smallRow_mag]
      norm_num
    · rw [yearRestrict_scenario]
      simp only [smallRow_main]
      rw [countP_micro_scenario0]
      norm_num

/-- C7 counterexample: in a group with maximum magnitude 6, the row of
magnitude 3 — exactly 3 below the maximum, hence kept according to the
claim — is discarded by the code's strict `mag < max - 3` filter, leaving
the micro-event table empty. -/
theorem claim_C7_counterexample :
    (⟨⟨2000, 1, 1, 0, 0, 0⟩, 3, 0⟩ : PrecRow) ∈
        ([⟨⟨2000, 1, 1, 0, 0, 0⟩, 6, 0⟩, ⟨⟨2000, 1, 1, 0, 0, 0⟩, 3, 0⟩] : List PrecRow)
      ∧ groupMaxMag [⟨⟨2000, 1, 1, 0, 0, 0⟩, 6, 0⟩, ⟨⟨2000, 1, 1, 0, 0, 0⟩, 3, 0⟩] 0 = some 6
      ∧ (⟨⟨2000, 1, 1, 0, 0, 0⟩, 3, 0⟩ : PrecRow).mag = 6 - 3
      ∧ microPred [⟨⟨2000, 1, 1, 0, 0, 0⟩, 6, 0⟩, ⟨⟨2000, 1, 1, 0, 0, 0⟩, 3, 0⟩]
          ⟨⟨2000, 1, 1, 0, 0, 0⟩, 3, 0⟩ = false
      ∧ microFilter [⟨⟨2000, 1, 1, 0, 0, 0⟩, 6, 0⟩, ⟨⟨2000, 1, 1, 0, 0, 0⟩, 3, 0⟩] = []
      ∧ plotEQFrequencyFiltered
          [⟨⟨2000, 1, 1, 0, 0, 0⟩, 6, 0⟩, ⟨⟨2000, 1, 1, 0, 0, 0⟩, 3, 0⟩] = [] := by
  have hgm : groupMaxMag [⟨⟨2000, 1, 1, 0, 0, 0⟩, 6, 0⟩, ⟨⟨2000, 1, 1, 0, 0, 0⟩, 3, 0⟩] 0
      = some 6 := by decide
  have hp3 : microPred [⟨⟨2000, 1, 1, 0, 0, 0⟩, 6, 0⟩, ⟨⟨2000, 1, 1, 0, 0, 0⟩, 3, 0⟩]
      ⟨⟨2000, 1, 1, 0, 0, 0⟩, 3, 0⟩ = false := by
    unfold microPred
    rw [show (⟨⟨2000, 1, 1, 0, 0, 0⟩, 3, 0⟩ : PrecRow).main_event = 0 from rfl, hgm]
    norm_num
  have hp6 : microPred [⟨⟨2000, 1, 1, 0, 0, 0⟩, 6, 0⟩, ⟨⟨2000, 1, 1, 0, 0, 0⟩, 3, 0⟩]
      ⟨⟨2000, 1, 1, 0, 0, 0⟩, 6, 0⟩ = false := by
    unfold microPred
    rw [show (⟨⟨2000, 1, 1, 0, 0, 0⟩, 6, 0⟩ : PrecRow).main_event = 0 from rfl, hgm]
    norm_num
  have hmf : microFilter [⟨⟨2000, 1, 1, 0, 0, 0⟩, 6, 0⟩, ⟨⟨2000, 1, 1, 0, 0, 0⟩, 3, 0⟩]
      = [] := by
    unfold microFilter
    rw [List.filter_cons, List.filter_cons, List.filter_nil, hp3, hp6]
    rfl
  refine ⟨by simp, hgm, by norm_num, hp3, hmf, ?_⟩
  unfold plotEQFrequencyFiltered
  rw [show yearRestrict [⟨⟨2000, 1, 1, 0, 0, 0⟩, 6, 0⟩, ⟨⟨2000, 1, 1, 0, 0, 0⟩, 3, 0⟩]
      = [⟨⟨2000, 1, 1, 0, 0, 0⟩, 6, 0⟩, ⟨⟨2000, 1, 1, 0, 0, 0⟩, 3, 0⟩] from by decide, hmf]
  rfl

end EQTrends
